import Mathlib

/-!
# Verification of the PeTTraC hardware/runtime core

Shallow embedding of the PeTTraC repository (display driver, button
sampler, battery manager, event bus, observable state, render loop) and
proofs of the specified properties.
-/

namespace PeTTraC

/-! ## RGB565 pixel packing (`ST7789.ShowImage`)

The source converts 24-bit RGB to RGB565 with numpy `uint8` arithmetic:
`pix[...,0] = np.add(np.bitwise_and(img[...,0], 0xF8), np.right_shift(img[...,1], 5))`
`pix[...,1] = np.add(np.bitwise_and(np.left_shift(img[...,1], 3), 0xE0), np.right_shift(img[...,2], 3))`
`uint8` arithmetic wraps modulo 256, hence the explicit `% 256`. -/

/-- High byte of the RGB565 packing as computed by `ShowImage`
(`np.add(np.bitwise_and(r, 0xF8), np.right_shift(g, 5))` on `uint8`). -/
def packHi (r g : Nat) : Nat :=
  ((r &&& 0xF8) + (g >>> 5)) % 256

/-- Low byte of the RGB565 packing as computed by `ShowImage`
(`np.add(np.bitwise_and(np.left_shift(g, 3), 0xE0), np.right_shift(b, 3))` on `uint8`). -/
def packLo (g b : Nat) : Nat :=
  ((((g <<< 3) % 256) &&& 0xE0) + (b >>> 3)) % 256

/-- Modelled from the spec: the repository contains no unpacking routine;
this is the standard RGB565 field extraction (5 bits red, 6 bits green,
5 bits blue, each replicated into the high bits of an 8-bit channel)
that the spec's round-trip property refers to. -/
def unpack565 (hi lo : Nat) : Nat × Nat × Nat :=
  (hi &&& 0xF8, ((hi &&& 0x07) <<< 5) ||| ((lo &&& 0xE0) >>> 3), (lo &&& 0x1F) <<< 3)

end PeTTraC

namespace PeTTraC

/-! ### Byte-level helper lemmas (each checked by exhaustive case analysis) -/

set_option maxRecDepth 2000 in
theorem and_F8_eq (x : Nat) (hx : x < 256) : x &&& 0xF8 = 8 * (x / 8) := by
  revert x hx; decide

set_option maxRecDepth 2000 in
theorem and_E0_eq (x : Nat) (hx : x < 256) : x &&& 0xE0 = 32 * (x / 32) := by
  revert x hx; decide

set_option maxRecDepth 2000 in
theorem or_low3_eq_add (a : Nat) (ha : a < 32) (c : Nat) (hc : c < 8) :
    (8 * a) ||| c = 8 * a + c := by
  revert a ha c hc; decide

set_option maxRecDepth 2000 in
theorem or_low5_eq_add (a : Nat) (ha : a < 8) (c : Nat) (hc : c < 32) :
    (32 * a) ||| c = 32 * a + c := by
  revert a ha c hc; decide

set_option maxRecDepth 2000 in
theorem shl3_and_E0_mod (g : Nat) (hg : g < 256) :
    (8 * g) &&& 0xE0 = ((8 * g) % 256) &&& 0xE0 := by
  revert g hg; decide

set_option maxRecDepth 2000 in
theorem or8_and_F8 (a : Nat) (ha : a < 32) (c : Nat) (hc : c < 8) :
    ((8 * a) ||| c) &&& 0xF8 = 8 * a := by
  revert a ha c hc; decide

set_option maxRecDepth 2000 in
theorem or8_and_07 (a : Nat) (ha : a < 32) (c : Nat) (hc : c < 8) :
    ((8 * a) ||| c) &&& 0x07 = c := by
  revert a ha c hc; decide

set_option maxRecDepth 2000 in
theorem or32_and_E0 (a : Nat) (ha : a < 8) (c : Nat) (hc : c < 32) :
    ((32 * a) ||| c) &&& 0xE0 = 32 * a := by
  revert a ha c hc; decide

set_option maxRecDepth 2000 in
theorem or32_and_1F (a : Nat) (ha : a < 8) (c : Nat) (hc : c < 32) :
    ((32 * a) ||| c) &&& 0x1F = c := by
  revert a ha c hc; decide

set_option maxRecDepth 2000 in
theorem green_mid_recombine (g : Nat) (hg : g < 256) (h4 : g % 4 = 0) :
    ((g / 32) <<< 5) ||| ((32 * ((8 * g % 256) / 32)) >>> 3) = g := by
  revert g hg h4; decide

theorem shiftr5_eq (g : Nat) : g >>> 5 = g / 32 := by
  rw [Nat.shiftRight_eq_div_pow]

theorem shiftr3_eq (b : Nat) : b >>> 3 = b / 8 := by
  rw [Nat.shiftRight_eq_div_pow]

theorem shiftl3_eq (g : Nat) : g <<< 3 = 8 * g := by
  rw [Nat.shiftLeft_eq]; omega

theorem shiftl3_div8 (b : Nat) : (b / 8) <<< 3 = 8 * (b / 8) := by
  rw [Nat.shiftLeft_eq]; omega

/-! ### Packing equations -/

theorem packHi_val (r g : Nat) (hr : r < 256) (hg : g < 256) :
    packHi r g = 8 * (r / 8) + g / 32 := by
  have hlt : 8 * (r / 8) + g / 32 < 256 := by omega
  simp only [packHi, and_F8_eq r hr, shiftr5_eq, Nat.mod_eq_of_lt hlt]

theorem packHi_or (r g : Nat) (hr : r < 256) (hg : g < 256) :
    packHi r g = (r &&& 0xF8) ||| (g >>> 5) := by
  rw [packHi_val r g hr hg, and_F8_eq r hr, shiftr5_eq,
    or_low3_eq_add (r / 8) (by omega) (g / 32) (by omega)]

theorem packLo_val (g b : Nat) (hg : g < 256) (hb : b < 256) :
    packLo g b = 32 * ((8 * g % 256) / 32) + b / 8 := by
  have hm : 8 * g % 256 < 256 := Nat.mod_lt _ (by omega)
  have hlt : 32 * ((8 * g % 256) / 32) + b / 8 < 256 := by omega
  simp only [packLo, shiftl3_eq, and_E0_eq (8 * g % 256) hm, shiftr3_eq,
    Nat.mod_eq_of_lt hlt]

theorem packLo_or (g b : Nat) (hg : g < 256) (hb : b < 256) :
    packLo g b = ((g <<< 3) &&& 0xE0) ||| (b >>> 3) := by
  have hm : 8 * g % 256 < 256 := Nat.mod_lt _ (by omega)
  rw [packLo_val g b hg hb, shiftl3_eq, shiftr3_eq, shl3_and_E0_mod g hg,
    and_E0_eq (8 * g % 256) hm,
    or_low5_eq_add ((8 * g % 256) / 32) (by omega) (b / 8) (by omega)]

theorem unpack_pack (r g b : Nat) (hr : r < 256) (hg : g < 256) (hb : b < 256)
    (h8r : r % 8 = 0) (h4g : g % 4 = 0) (h8b : b % 8 = 0) :
    unpack565 (packHi r g) (packLo g b) = (r, g, b) := by
  have hm : 8 * g % 256 < 256 := Nat.mod_lt _ (by omega)
  have hhi : packHi r g = (8 * (r / 8)) ||| (g / 32) := by
    rw [packHi_or r g hr hg, and_F8_eq r hr, shiftr5_eq]
  have hlo : packLo g b = (32 * ((8 * g % 256) / 32)) ||| (b / 8) := by
    rw [packLo_val g b hg hb,
      or_low5_eq_add ((8 * g % 256) / 32) (by omega) (b / 8) (by omega)]
  rw [unpack565, hhi, hlo,
    or8_and_F8 (r / 8) (by omega) (g / 32) (by omega),
    or8_and_07 (r / 8) (by omega) (g / 32) (by omega),
    or32_and_E0 ((8 * g % 256) / 32) (by omega) (b / 8) (by omega),
    or32_and_1F ((8 * g % 256) / 32) (by omega) (b / 8) (by omega),
    green_mid_recombine g hg h4g, shiftl3_div8]
  have h1 : 8 * (r / 8) = r := by omega
  have h3 : 8 * (b / 8) = b := by omega
  rw [h1, h3]

/-- C3: `ShowImage` packs 24-bit RGB to RGB565 by exactly
`hi = (R &&& 0xF8) ||| (G >>> 5)` and `lo = ((G <<< 3) &&& 0xE0) ||| (B >>> 3)`,
and for every 5/6/5-bit-aligned byte triple (R multiple of 8, G multiple of 4,
B multiple of 8) packing then unpacking returns the original triple. -/
theorem c3_rgb565_pack_roundtrip (r g b : Nat)
    (hr : r < 256) (hg : g < 256) (hb : b < 256) :
    packHi r g = (r &&& 0xF8) ||| (g >>> 5) ∧
    packLo g b = ((g <<< 3) &&& 0xE0) ||| (b >>> 3) ∧
    (r % 8 = 0 → g % 4 = 0 → b % 8 = 0 →
      unpack565 (packHi r g) (packLo g b) = (r, g, b)) :=
  ⟨packHi_or r g hr hg, packLo_or g b hg hb,
    fun h8r h4g h8b => unpack_pack r g b hr hg hb h8r h4g h8b⟩

/-- C3 witness: instantiated at the triple (248, 252, 248). -/
theorem c3_rgb565_witness :
    unpack565 (packHi 248 252) (packLo 252 248) = (248, 252, 248) :=
  (c3_rgb565_pack_roundtrip 248 252 248 (by decide) (by decide)
      (by decide)).2.2 (by decide) (by decide) (by decide)

/-! ## Button sampler (`RaspberryPi.update_button_states`)

Per-channel state: `button_states[key]` and `last_button_press_time[key]`
(both initialised to `False` / `0`).  `update_button_states` computes the
new active-low reading for each key, fires the registered callback on a
press edge that passes the time debounce (strict `current_time - last > 100`),
updates `last_button_press_time` only for qualifying edges, and finally
executes `self.button_states = new_states` unconditionally. -/

/-- The debounce interval, `self.button_debounce_ms = 100`. -/
def button_debounce_ms : Nat := 100

/-- One channel's slice of the sampler state. -/
structure ButtonChannel where
  state : Bool
  lastPress : Nat
deriving DecidableEq

/-- One channel's slice of one `update_button_states` call at time `now`
(ms) with raw inverted reading `reading`.  Returns the post-call channel
state and whether the press edge qualified (callback fired,
`last_button_press_time` updated).  Note `current_time - last > 100` on
Python ints coincides with truncated `Nat` subtraction here, and the final
`self.button_states = new_states` assignment is unconditional. -/
def stepChannel (ch : ButtonChannel) (reading : Bool) (now : Nat) : ButtonChannel × Bool :=
  if reading && !ch.state then
    if now - ch.lastPress > button_debounce_ms then
      ({ state := reading, lastPress := now }, true)
    else
      ({ state := reading, lastPress := ch.lastPress }, false)
  else
    ({ state := reading, lastPress := ch.lastPress }, false)

/-- Sequence of polls on one channel: fold `stepChannel` over a list of
(time, reading) samples, counting qualifying edges. -/
def pollRun (ch : ButtonChannel) : List (Nat × Bool) → ButtonChannel × Nat
  | [] => (ch, 0)
  | (now, reading) :: rest =>
    let step := stepChannel ch reading now
    let tail := pollRun step.1 rest
    (tail.1, (if step.2 then 1 else 0) + tail.2)

/-- C1 counterexample: a suppressed press transition still updates the
stored channel state (the `self.button_states = new_states` assignment is
unconditional), and a press edge exactly 100 ms after the previous one is
suppressed rather than qualifying (the test is strict `> 100`). -/
theorem c1_counterexample :
    ((stepChannel ⟨false, 0⟩ true 50).2 = false ∧
      (stepChannel ⟨false, 0⟩ true 50).1.state = true) ∧
    (stepChannel ⟨false, 100⟩ true 200).2 = false := by decide

/-- C1 amended: on a press transition the stored state is always updated to
the new reading; the edge qualifies (callback fires, `last_edge_time`
updated) exactly when the elapsed time strictly exceeds 100 ms, and is
suppressed (no callback, `last_edge_time` kept) when the elapsed time is
at most 100 ms.  Consequently two raw press edges separated by more than
100 ms produce two qualifying edges, and by at most 100 ms produce one. -/
theorem c1_debounce_amended (ch : ButtonChannel) (reading : Bool) (now : Nat) :
    ((stepChannel ch reading now).1.state = reading) ∧
    (reading = true → ch.state = false → now - ch.lastPress ≤ button_debounce_ms →
      stepChannel ch reading now = ({ state := reading, lastPress := ch.lastPress }, false)) ∧
    (reading = true → ch.state = false → now - ch.lastPress > button_debounce_ms →
      stepChannel ch reading now = ({ state := reading, lastPress := now }, true)) ∧
    (∀ t₁ t₂ t₃ : Nat, button_debounce_ms < t₁ → t₁ ≤ t₂ → t₂ ≤ t₃ →
      (pollRun ⟨false, 0⟩ [(t₁, true), (t₂, false), (t₃, true)]).2 =
        if button_debounce_ms < t₃ - t₁ then 2 else 1) := by
  refine ⟨?_, ?_, ?_, ?_⟩
  · unfold stepChannel
    split <;> [skip; rfl] <;> split <;> rfl
  · intro hr hs hle
    subst hr
    simp only [stepChannel, hs, Bool.not_false, Bool.and_self, if_true]
    rw [if_neg (by omega)]
  · intro hr hs hgt
    subst hr
    simp only [stepChannel, hs, Bool.not_false, Bool.and_self, if_true]
    rw [if_pos hgt]
  · intro t₁ t₂ t₃ h1 h12 h23
    have s1 : stepChannel ⟨false, 0⟩ true t₁ = ({ state := true, lastPress := t₁ }, true) := by
      simp [stepChannel, h1]
    have s2 : stepChannel ⟨true, t₁⟩ false t₂ = ({ state := false, lastPress := t₁ }, false) := by
      simp [stepChannel]
    by_cases h : button_debounce_ms < t₃ - t₁
    · have s3 : stepChannel ⟨false, t₁⟩ true t₃ = ({ state := true, lastPress := t₃ }, true) := by
        simp [stepChannel, h]
      rw [if_pos h]
      simp [pollRun, s1, s2, s3]
    · have s3 : stepChannel ⟨false, t₁⟩ true t₃ = ({ state := true, lastPress := t₁ }, false) := by
        simp [stepChannel, button_debounce_ms] at h ⊢
        omega
      rw [if_neg h]
      simp [pollRun, s1, s2, s3]

/-- C1 witness: two press edges 90 ms apart (150 then 240) after a qualifying
first edge yield exactly one qualifying edge. -/
theorem c1_debounce_witness :
    (pollRun ⟨false, 0⟩ [(150, true), (200, false), (240, true)]).2 = 1 := by
  have h := (c1_debounce_amended ⟨false, 0⟩ true 240).2.2.2 150 200 240
    (by decide) (by decide) (by decide)
  simpa using h

/-! ## Display window addressing (`ST7789.SetWindows`)

`command`/`data` emit one byte each with the DC line low/high. -/

/-- A sequence of bytes on the SPI link, each tagged with the state of the
command/data selector line (`false` = command, `true` = data). -/
abbrev Emission := List (Bool × Nat)

/-- Source `self.command(cmd)`: DC low, one byte. -/
def commandByte (c : Nat) : Emission := [(false, c)]

/-- Source `self.data(val)`: DC high, one byte. -/
def dataByte (v : Nat) : Emission := [(true, v)]

/-- Python `v & 0xff` on a (possibly negative) int. -/
def byteOf (v : Int) : Nat := (v % 256).toNat

/-- Source `ST7789.SetWindows(Xstart, Ystart, Xend, Yend)`: column address set,
row address set, memory write. -/
def SetWindows (Xstart Ystart Xend Yend : Int) : Emission :=
  commandByte 0x2A ++ dataByte 0x00 ++ dataByte (byteOf Xstart) ++
    dataByte 0x00 ++ dataByte (byteOf (Xend - 1)) ++
  commandByte 0x2B ++ dataByte 0x00 ++ dataByte (byteOf Ystart) ++
    dataByte 0x00 ++ dataByte (byteOf (Yend - 1)) ++
  commandByte 0x2C

/-- C5: `SetWindows` emits, for the column-address-set command `0x2A`, the
data bytes `0x00, x0 & 0xFF, 0x00, (x1-1) & 0xFF`, the analogous four bytes
for the row-address-set command `0x2B`, then the memory-write command
`0x2C`; in particular `SetWindows 0 0 240 240` emits end-coordinate bytes
239, not 240. -/
theorem c5_set_windows (x0 y0 x1 y1 : Int) :
    SetWindows x0 y0 x1 y1 =
      [(false, 0x2A), (true, 0x00), (true, byteOf x0),
        (true, 0x00), (true, byteOf (x1 - 1)),
        (false, 0x2B), (true, 0x00), (true, byteOf y0),
        (true, 0x00), (true, byteOf (y1 - 1)),
        (false, 0x2C)] ∧
    SetWindows 0 0 240 240 =
      [(false, 0x2A), (true, 0), (true, 0), (true, 0), (true, 239),
        (false, 0x2B), (true, 0), (true, 0), (true, 0), (true, 239),
        (false, 0x2C)] :=
  ⟨rfl, by decide⟩

/-! ## Battery threshold policy (`BatteryManager.get_battery_percentage`,
`BatteryManager._trigger_auto_shutdown`) -/

/-- Alarm raised by one successful percentage read. -/
inductive BatteryAlarm
  | noAlarm
  | warning
  | critical
  | shutdown
deriving DecidableEq

/-- The `if percentage <= auto_shutdown / elif <= critical_warning /
elif <= low_warning` chain of `get_battery_percentage`. -/
def batteryAlarm (lowW critW shutW pct : Nat) : BatteryAlarm :=
  if pct ≤ shutW then .shutdown
  else if pct ≤ critW then .critical
  else if pct ≤ lowW then .warning
  else .noAlarm

/-- Whether a system shutdown request is issued for this read:
`get_battery_percentage` calls `_trigger_auto_shutdown` when
`percentage <= auto_shutdown`, and the trigger runs the shutdown command
when the configured `auto_shutdown` threshold is positive. -/
def shutdownRequested (shutW pct : Nat) : Bool :=
  decide (pct ≤ shutW) && decide (0 < shutW)

/-- C6: with the default thresholds low=20, critical=10, shutdown=5,
exactly one band applies to every read: ≤5 critical alarm plus shutdown
request, 5<pct≤10 critical alarm only, 10<pct≤20 warning only, >20 no
alarm; the sequence [25, 15, 8, 3] yields no-alarm, warning, critical,
shutdown-with-request in order. -/
theorem c6_battery_thresholds (pct : Nat) :
    (pct ≤ 5 → batteryAlarm 20 10 5 pct = .shutdown ∧ shutdownRequested 5 pct = true) ∧
    (5 < pct → pct ≤ 10 →
      batteryAlarm 20 10 5 pct = .critical ∧ shutdownRequested 5 pct = false) ∧
    (10 < pct → pct ≤ 20 →
      batteryAlarm 20 10 5 pct = .warning ∧ shutdownRequested 5 pct = false) ∧
    (20 < pct → batteryAlarm 20 10 5 pct = .noAlarm ∧ shutdownRequested 5 pct = false) ∧
    [25, 15, 8, 3].map (batteryAlarm 20 10 5) =
      [.noAlarm, .warning, .critical, .shutdown] := by
  refine ⟨?_, ?_, ?_, ?_, by decide⟩
  · intro h
    rw [batteryAlarm, if_pos h]
    simp [shutdownRequested, h]
  · intro h5 h10
    rw [batteryAlarm, if_neg (by omega), if_pos h10]
    simp [shutdownRequested]
    omega
  · intro h10 h20
    rw [batteryAlarm, if_neg (by omega), if_neg (by omega), if_pos h20]
    simp [shutdownRequested]
    omega
  · intro h20
    rw [batteryAlarm, if_neg (by omega), if_neg (by omega), if_neg (by omega)]
    simp [shutdownRequested]
    omega

/-- C6 witness: percentage 3 triggers the shutdown band. -/
theorem c6_battery_witness :
    batteryAlarm 20 10 5 3 = .shutdown ∧ shutdownRequested 5 3 = true :=
  (c6_battery_thresholds 3).1 (by decide)

/-! ## Battery register reads (`BatteryManager.get_battery_voltage`,
`get_battery_percentage`, `is_charging`)

Each I2C register read may fail (the `try`/`except` returns `None`);
a read is modelled as an `Option Nat`.  `init` models
`self.initialized`. -/

/-- Source `get_battery_voltage`: reads registers 0x22 (high) and 0x23 (low) and
combines them big-endian, `(high_byte << 8) | low_byte`; any failure in
the `try` block returns `None`. -/
def get_battery_voltage (init : Bool) (rHigh rLow : Option Nat) : Option Nat :=
  if !init then none
  else match rHigh, rLow with
    | some h, some l => some ((h <<< 8) ||| l)
    | _, _ => none

/-- The value returned by `get_battery_percentage`: register 0x2A, or `None` on
failure. -/
def get_battery_percentage_val (init : Bool) (rPct : Option Nat) : Option Nat :=
  if !init then none
  else match rPct with
    | some p => some p
    | none => none

/-- Source `is_charging`: register 0x02, bit 7 (`bool(status & (1 << 7))`), or
`None` on failure. -/
def is_charging (init : Bool) (rStatus : Option Nat) : Option Bool :=
  if !init then none
  else match rStatus with
    | some s => some (decide (s &&& (1 <<< 7) ≠ 0))
    | none => none

/-- One full battery poll: the three reads are separate calls on separate
registers. -/
def batteryRead (init : Bool) (rHigh rLow rPct rStatus : Option Nat) :
    Option Nat × Option Nat × Option Bool :=
  (get_battery_voltage init rHigh rLow,
    get_battery_percentage_val init rPct,
    is_charging init rStatus)

theorem and_two_pow_ne_zero_iff_testBit (s : Nat) (i : Nat) :
    (s &&& (1 <<< i) ≠ 0) ↔ s.testBit i := by
  rw [Nat.shiftLeft_eq, one_mul, Nat.and_two_pow]
  cases h : s.testBit i
  · simp
  · simpa using (pow_pos (by norm_num : (0 : ℕ) < 2) i).ne'

/-- C9: a register-read failure in any one of the three battery reads
yields `none` for that field only, leaving the other two fields exactly as
computed from their own registers; a successful voltage read combines the
two bytes big-endian, and the charging flag is bit 7 of the status
register. -/
theorem c9_battery_field_isolation (rh rl rp rs : Option Nat) :
    ((batteryRead true rh rl rp none).2.2 = none ∧
      (batteryRead true rh rl rp none).1 = (batteryRead true rh rl rp rs).1 ∧
      (batteryRead true rh rl rp none).2.1 = (batteryRead true rh rl rp rs).2.1) ∧
    ((batteryRead true rh rl none rs).2.1 = none ∧
      (batteryRead true rh rl none rs).1 = (batteryRead true rh rl rp rs).1 ∧
      (batteryRead true rh rl none rs).2.2 = (batteryRead true rh rl rp rs).2.2) ∧
    ((batteryRead true none rl rp rs).1 = none ∧
      (batteryRead true rh none rp rs).1 = none ∧
      (batteryRead true none rl rp rs).2.1 = (batteryRead true rh rl rp rs).2.1 ∧
      (batteryRead true none rl rp rs).2.2 = (batteryRead true rh rl rp rs).2.2) ∧
    (∀ h l, get_battery_voltage true (some h) (some l) = some ((h <<< 8) ||| l)) ∧
    (∀ s, is_charging true (some s) = some (s.testBit 7)) := by
  refine ⟨⟨rfl, rfl, rfl⟩, ⟨rfl, rfl, rfl⟩, ⟨rfl, ?_, rfl, rfl⟩,
    fun h l => rfl, fun s => ?_⟩
  · cases rh <;> rfl
  · have hch : is_charging true (some s) = some (decide (s &&& (1 <<< 7) ≠ 0)) := rfl
    rw [hch]
    congr 1
    rw [Bool.eq_iff_iff, decide_eq_true_eq]
    exact and_two_pow_ne_zero_iff_testBit s 7

/-! ## Display rotation (`ST7789.Init`, `ST7789.ShowImage`,
`ST7789.set_rotation`) -/

/-- The MADCTL value chosen by `Init`:
`rotation_values.get(self.rotation, 0x70)` over the table
`{0: 0x70, 90: 0x10, 180: 0xC0, 270: 0xA0}`. -/
def rotationRegValue (rot : Int) : Nat :=
  if rot = 0 then 0x70
  else if rot = 90 then 0x10
  else if rot = 180 then 0xC0
  else if rot = 270 then 0xA0
  else 0x70

/-- The command/data byte stream emitted on the SPI link by `ST7789.Init`
(the reset-line pulse and SPI mode setup touch no command/data bytes). -/
def InitEmission (rot : Int) : Emission :=
  [(false, 0x36), (true, rotationRegValue rot),
   (false, 0x3A), (true, 0x05),
   (false, 0xB2), (true, 0x0C), (true, 0x0C), (true, 0x00), (true, 0x33), (true, 0x33),
   (false, 0xB7), (true, 0x35),
   (false, 0xBB), (true, 0x19),
   (false, 0xC0), (true, 0x2C),
   (false, 0xC2), (true, 0x01),
   (false, 0xC3), (true, 0x12),
   (false, 0xC4), (true, 0x20),
   (false, 0xC6), (true, 0x0F),
   (false, 0xD0), (true, 0xA4), (true, 0xA1),
   (false, 0xE0), (true, 0xD0), (true, 0x04), (true, 0x0D), (true, 0x11),
     (true, 0x13), (true, 0x2B), (true, 0x3F), (true, 0x54), (true, 0x4C),
     (true, 0x18), (true, 0x0D), (true, 0x0B), (true, 0x1F), (true, 0x23),
   (false, 0xE1), (true, 0xD0), (true, 0x04), (true, 0x0C), (true, 0x11),
     (true, 0x13), (true, 0x2C), (true, 0x3F), (true, 0x44), (true, 0x51),
     (true, 0x2F), (true, 0x1F), (true, 0x1F), (true, 0x20), (true, 0x23),
   (false, 0x21), (false, 0x11), (false, 0x29)]

/-- The frame actually packed and transmitted by `ShowImage`, over an
abstract image type with an abstract rotation operation `rotateOp`
(standing for the imaging library's counterclockwise `image.rotate`):
`if self.rotation and self.rotation % 360 != 0`, look up
`{90: 270, 180: 180, 270: 90}.get(self.rotation)` and rotate by it when
the lookup is truthy; otherwise transmit the frame unmodified. -/
def showTransmittedFrame {α : Type} (rotateOp : Int → α → α) (rot : Int) (img : α) : α :=
  if rot ≠ 0 ∧ rot % 360 ≠ 0 then
    let d : Int :=
      if rot = 90 then 270
      else if rot = 180 then 180
      else if rot = 270 then 90
      else 0
    if d ≠ 0 then rotateOp d img else img
  else img

/-- C4: `Init` writes the row/column-order (MADCTL) register value from
the table 0°→0x70, 90°→0x10, 180°→0xC0, 270°→0xA0 as the data byte of
command 0x36, and `ShowImage` pre-rotates the source frame by the
complement angle (90°→270°, 180°→180°, 270°→90°) while rotation 0°
transmits the frame unrotated. -/
theorem c4_rotation_register_and_prerotation :
    (∀ rot : Int, (InitEmission rot).take 2 = [(false, 0x36), (true, rotationRegValue rot)]) ∧
    (rotationRegValue 0 = 0x70 ∧ rotationRegValue 90 = 0x10 ∧
      rotationRegValue 180 = 0xC0 ∧ rotationRegValue 270 = 0xA0) ∧
    (∀ (α : Type) (rotateOp : Int → α → α) (img : α),
      showTransmittedFrame rotateOp 90 img = rotateOp 270 img ∧
      showTransmittedFrame rotateOp 180 img = rotateOp 180 img ∧
      showTransmittedFrame rotateOp 270 img = rotateOp 90 img ∧
      showTransmittedFrame rotateOp 0 img = img) := by
  refine ⟨fun rot => rfl, by decide, fun α rotateOp img => ⟨?_, ?_, ?_, ?_⟩⟩ <;>
    simp [showTransmittedFrame]

/-- The mutable display/config state touched by `ST7789.set_rotation`:
the stored `self.rotation`, the persisted `display.rotation`
configuration entry, and the trace of command/data bytes sent so far. -/
structure DisplayState where
  rotation : Int
  configRotation : Int
  emitted : Emission
deriving DecidableEq

/-- Source `ST7789.set_rotation(rotation)`: for a value in (0, 90, 180, 270) it
stores the rotation, persists it to configuration, re-runs `Init` and
returns `True`; otherwise it returns `False` having executed nothing. -/
def set_rotation (st : DisplayState) (rot : Int) : Bool × DisplayState :=
  if rot = 0 ∨ rot = 90 ∨ rot = 180 ∨ rot = 270 then
    (true, { rotation := rot, configRotation := rot,
             emitted := st.emitted ++ InitEmission rot })
  else
    (false, st)

/-- C10: for every argument outside {0, 90, 180, 270}, `set_rotation`
returns `False` and leaves the stored rotation, the persisted
configuration and the emitted byte trace exactly as they were (no
commands or data are sent, `Init` is not re-run). -/
theorem c10_set_rotation_invalid_noop (st : DisplayState) (rot : Int)
    (h : ¬(rot = 0 ∨ rot = 90 ∨ rot = 180 ∨ rot = 270)) :
    set_rotation st rot = (false, st) := by
  simp [set_rotation, h]

/-- C10 witness: `set_rotation 45` on a fresh state is a rejected no-op. -/
theorem c10_set_rotation_witness :
    set_rotation ⟨0, 0, []⟩ 45 = (false, ⟨0, 0, []⟩) :=
  c10_set_rotation_invalid_noop ⟨0, 0, []⟩ 45 (by decide)

/-! ## Observable (`state_manager.Observable`)

`self._value` plus the registered observers (identified by registration
order).  The value setter assigns `self._value = new_value` *before*
calling `_notify_observers`, so a re-entrant read during a callback sees
the new value. -/

/-- The observable's state: current `_value` and `_observers`. -/
structure ObsState (T : Type) where
  value : T
  observers : List Nat

/-- Source `_notify_observers`, called on the post-assignment state `s`: each
observer is invoked in registration order; the trace records, per call,
(observer id, the argument `new_value` passed, the value a re-entrant
`value` read during that call returns, namely `s.value`).  An observer
exception is caught and logged, so every observer appears in the trace
regardless. -/
def notifyObservers {T : Type} (s : ObsState T) (newValue : T) : List (Nat × T × T) :=
  s.observers.map (fun i => (i, newValue, s.value))

/-- The `value` setter: `if new_value != self._value: self._value =
new_value; self._notify_observers(old_value, new_value)`. -/
def setValue {T : Type} [DecidableEq T] (s : ObsState T) (newValue : T) :
    ObsState T × List (Nat × T × T) :=
  if newValue ≠ s.value then
    let s' : ObsState T := { s with value := newValue }
    (s', notifyObservers s' newValue)
  else (s, [])

/-- C7: setting an equal value is a no-op with no notifications; setting a
different value updates the stored value before notification begins, so
every observer is called in registration order with the new value and a
re-entrant read during any callback returns the new value; and setting the
same value twice notifies at most once total (the second set notifies
nobody). -/
theorem c7_observable_set {T : Type} [DecidableEq T] (s : ObsState T) (v : T) :
    (v = s.value → setValue s v = (s, [])) ∧
    (v ≠ s.value →
      (setValue s v).1 = { s with value := v } ∧
      (setValue s v).2 = s.observers.map (fun i => (i, v, v))) ∧
    (setValue (setValue s v).1 v).2 = [] := by
  refine ⟨?_, ?_, ?_⟩
  · intro h
    simp [setValue, h]
  · intro h
    simp [setValue, h, notifyObservers]
  · by_cases h : v = s.value
    · simp [setValue, h]
    · have h1 : (setValue s v).1 = { s with value := v } := by simp [setValue, h]
      rw [h1]
      simp [setValue]

/-- C7 witness: observable holding 0 with observers [1, 2], set to 5, then
set to 5 again. -/
theorem c7_observable_witness :
    (setValue (⟨0, [1, 2]⟩ : ObsState Nat) 5).2 = [(1, 5, 5), (2, 5, 5)] ∧
    (setValue (setValue (⟨0, [1, 2]⟩ : ObsState Nat) 5).1 5).2 = [] := by
  have h := c7_observable_set (⟨0, [1, 2]⟩ : ObsState Nat) 5
  exact ⟨by rw [(h.2.1 (by decide)).2]; rfl, h.2.2⟩

/-! ## Render loop pacing (`PeTTraCApplication.run`)

`UPDATE_INTERVAL = 0.05` seconds; each tick measures
`elapsed = time.time() - loop_start` and computes
`sleep_time = max(0, UPDATE_INTERVAL - elapsed)`, sleeping only when
positive.  Wall-clock durations are modelled over `ℚ`. -/

/-- Source `UPDATE_INTERVAL = 0.05`  (seconds; 50 ms). -/
def UPDATE_INTERVAL : ℚ := 1 / 20

/-- Source `sleep_time = max(0, UPDATE_INTERVAL - elapsed)`. -/
def sleep_time (elapsed : ℚ) : ℚ := max 0 (UPDATE_INTERVAL - elapsed)

/-- The duration actually slept this tick
(`if sleep_time > 0: time.sleep(sleep_time)`). -/
def sleptDuration (elapsed : ℚ) : ℚ :=
  if sleep_time elapsed > 0 then sleep_time elapsed else 0

/-- The sleeps of a run of ticks with the given elapsed (update+render)
times: the loop keeps no pacing state between iterations, so each tick's
sleep is a function of that tick's elapsed time alone. -/
def tickSleeps (elapsedTimes : List ℚ) : List ℚ :=
  elapsedTimes.map sleptDuration

/-- C8: each tick sleeps exactly `max(0, 0.05 s − elapsed)`; the sleep is
never negative; a tick whose update+render meets or exceeds the 50 ms
budget sleeps 0 (in particular 70 ms → 0); and no backlog carries between
ticks — a run's sleeps are a pure per-tick map of each tick's own elapsed
time. -/
theorem c8_render_loop_pacing (elapsed : ℚ) :
    sleptDuration elapsed = max 0 (UPDATE_INTERVAL - elapsed) ∧
    0 ≤ sleptDuration elapsed ∧
    (UPDATE_INTERVAL ≤ elapsed → sleptDuration elapsed = 0) ∧
    sleptDuration (7 / 100) = 0 ∧
    (∀ ts : List ℚ, tickSleeps ts = ts.map sleptDuration) := by
  have key : sleptDuration elapsed = sleep_time elapsed := by
    unfold sleptDuration
    by_cases h : sleep_time elapsed > 0
    · rw [if_pos h]
    · rw [if_neg h]
      have h0 : sleep_time elapsed ≤ 0 := not_lt.mp h
      have h1 : 0 ≤ sleep_time elapsed := le_max_left 0 _
      linarith
  refine ⟨key, ?_, ?_, ?_, fun ts => rfl⟩
  · rw [key]; exact le_max_left 0 _
  · intro h
    rw [key, sleep_time, max_eq_left (by linarith)]
  · norm_num [sleptDuration, sleep_time, UPDATE_INTERVAL]

/-- C8 witness: a 70 ms tick sleeps 0. -/
theorem c8_pacing_witness : sleptDuration (7 / 100) = 0 :=
  (c8_render_loop_pacing (7 / 100)).2.2.1 (by norm_num [UPDATE_INTERVAL])

/-! ## Event bus (`event_system.EventBus.publish`)

`publish` snapshots `self.listeners[event_type].copy()` and iterates over
the snapshot, calling each callback inside `try`/`except` unless
`event.handled` is already true.  A callback is an opaque Python closure;
its observable behaviour on an event is modelled by a behaviour family
`behave : callback id → event → effect`, where the effect gives the event
as the callback leaves it (mutations before a raise included), whether an
exception escaped, and the callbacks it subscribed to the published kind
during its run. -/

/-- Source `event_system.Event`: kind, payload (abstracted to one word) and the
one-shot `handled` latch. -/
structure Event where
  eventType : Nat
  data : Nat
  handled : Bool
deriving DecidableEq

/-- Observable effect of one callback invocation. -/
structure CbEffect where
  event : Event
  raised : Bool
  subs : List Nat

/-- Result of a `publish` call: final event, callbacks invoked in order,
the live subscriber list for the published kind after the call, and the
`processed_events` increment. -/
structure PublishResult where
  event : Event
  invoked : List Nat
  listeners : List Nat
  processed : Nat
deriving DecidableEq

/-- Source `subscribe` on the published kind: append unless already present. -/
def subscribeOne (l : List Nat) (c : Nat) : List Nat :=
  if c ∈ l then l else l ++ [c]

/-- The `for callback in listeners:` loop of `publish`: `rest` is what
remains of the snapshot, `live` the current (mutable) subscriber list,
`n` the successful-invocation count. -/
def publishAux (behave : Nat → Event → CbEffect) :
    List Nat → Event → List Nat → Nat → PublishResult
  | [], ev, live, n => ⟨ev, [], live, n⟩
  | c :: rest, ev, live, n =>
    if ev.handled then
      publishAux behave rest ev live n
    else
      let eff := behave c ev
      let r := publishAux behave rest eff.event (eff.subs.foldl subscribeOne live)
        (if eff.raised then n else n + 1)
      { r with invoked := c :: r.invoked }

/-- Source `EventBus.publish(event)`: iterate over a snapshot copy of the
subscriber list taken at call time. -/
def publish (behave : Nat → Event → CbEffect) (listeners : List Nat) (ev : Event) :
    PublishResult :=
  publishAux behave listeners ev listeners 0

theorem publishAux_handled (behave : Nat → Event → CbEffect)
    (rest : List Nat) (ev : Event) (live : List Nat) (n : Nat)
    (h : ev.handled = true) :
    publishAux behave rest ev live n = ⟨ev, [], live, n⟩ := by
  induction rest with
  | nil => rfl
  | cons c cs ih => simp [publishAux, h, ih]

theorem publishAux_invoked_sublist (behave : Nat → Event → CbEffect)
    (rest : List Nat) :
    ∀ (ev : Event) (live : List Nat) (n : Nat),
      (publishAux behave rest ev live n).invoked.Sublist rest := by
  induction rest with
  | nil => intro ev live n; simp [publishAux]
  | cons c cs ih =>
    intro ev live n
    by_cases h : ev.handled = true
    · simp only [publishAux, if_pos h]
      exact (ih ev live n).cons c
    · simp only [publishAux, if_neg h]
      exact (ih _ _ _).cons₂ c

theorem publishAux_invoked_all (behave : Nat → Event → CbEffect)
    (hno : ∀ c e, (behave c e).event.handled = false) (rest : List Nat) :
    ∀ (ev : Event) (live : List Nat) (n : Nat), ev.handled = false →
      (publishAux behave rest ev live n).invoked = rest := by
  induction rest with
  | nil => intro ev live n _; rfl
  | cons c cs ih =>
    intro ev live n hev
    simp only [publishAux, hev, Bool.false_eq_true, if_false]
    simp [ih (behave c ev).event _ _ (hno c ev)]

theorem publishAux_invoked_congr (b₁ b₂ : Nat → Event → CbEffect)
    (hagree : ∀ c e, (b₁ c e).event = (b₂ c e).event) (rest : List Nat) :
    ∀ (ev : Event) (live₁ live₂ : List Nat) (n₁ n₂ : Nat),
      (publishAux b₁ rest ev live₁ n₁).invoked =
        (publishAux b₂ rest ev live₂ n₂).invoked := by
  induction rest with
  | nil => intro ev live₁ live₂ n₁ n₂; rfl
  | cons c cs ih =>
    intro ev live₁ live₂ n₁ n₂
    by_cases h : ev.handled = true
    · simp only [publishAux, if_pos h]
      exact ih ev live₁ live₂ n₁ n₂
    · simp only [publishAux, if_neg h]
      simp only [hagree c ev]
      simp only [List.cons.injEq, true_and]
      exact ih _ _ _ _ _

/-- C2: `publish` dispatches over a snapshot of the subscriber list taken
at call time, so the invoked callbacks are an order-preserving sublist of
that snapshot and subscribers added during the publish receive nothing; a
pre-handled event invokes no callback, and once `handled` is true every
remaining snapshotted callback is skipped; when nothing sets `handled`,
every snapshotted callback runs in subscription order; and whether
callbacks raise exceptions does not change which callbacks are invoked. -/
theorem c2_eventbus_publish (behave : Nat → Event → CbEffect)
    (listeners : List Nat) (ev : Event) :
    (publish behave listeners ev).invoked.Sublist listeners ∧
    (ev.handled = true → (publish behave listeners ev).invoked = []) ∧
    (∀ (rest live : List Nat) (n : Nat) (e : Event), e.handled = true →
      (publishAux behave rest e live n).invoked = []) ∧
    (ev.handled = false → (∀ c e, (behave c e).event.handled = false) →
      (publish behave listeners ev).invoked = listeners) ∧
    (∀ behave' : Nat → Event → CbEffect,
      (∀ c e, (behave' c e).event = (behave c e).event) →
      (publish behave' listeners ev).invoked = (publish behave listeners ev).invoked) := by
  refine ⟨publishAux_invoked_sublist behave listeners ev listeners 0,
    fun h => ?_, fun rest live n e he => ?_, fun hev hno => ?_, fun b' hag => ?_⟩
  · rw [publish, publishAux_handled behave listeners ev listeners 0 h]
  · rw [publishAux_handled behave rest e live n he]
  · exact publishAux_invoked_all behave hno listeners ev listeners 0 hev
  · exact publishAux_invoked_congr b' behave hag listeners ev listeners listeners 0 0

/-- C2 witness: publishing an already-handled event to subscribers [1, 2]
invokes nobody. -/
theorem c2_eventbus_witness :
    (publish (fun _ e => ⟨e, false, []⟩) [1, 2] ⟨0, 0, true⟩).invoked = [] :=
  (c2_eventbus_publish (fun _ e => ⟨e, false, []⟩) [1, 2] ⟨0, 0, true⟩).2.1 rfl

end PeTTraC
